import Mathlib

/-!
Verification of the autorole core (`src/cogs/autorole.py`, class `AutoRoleManager`).

The manager holds an in-memory `defaultdict` mapping guild ids to a pair of
role-id lists (`"humans"`, `"bots"`), persisted as a whole to
`db/autorole.json`, plus a per-guild template catalog persisted to
`db/autorole_templates.json`.  We embed the state explicitly:

  * Python dicts become association lists (`dlookup` / `dinsert` / `derase`
    model item lookup, item assignment and `del`);
  * the `defaultdict(lambda: {"humans": [], "bots": []})` access is
    `getGuild`, which materializes an empty entry for an unseen key and
    returns the possibly-grown state;
  * the two JSON files become `Option`-valued fields of `SysState`
    (`none` models `FileNotFoundError`); `json.dump` becomes replacing the
    field with the current in-memory value;
  * `uuid.uuid4()` nondeterminism becomes an explicit `tid` argument to
    `save_template`;
  * the `RoleLimit` exception becomes an `Option RoleLimit` result paired
    with the post-state (the state reached before the raise).
-/

namespace Autorole

/-- Role categories: the `"humans"` / `"bots"` keys of a guild's entry. -/
inductive RoleType
  | humans
  | bots
deriving DecidableEq, Repr

/-- The dictionary key string of a category. -/
def RoleType.key : RoleType → String
  | .humans => "humans"
  | .bots => "bots"

/-- `max_roles = 5 if role_type == "humans" else 2` (autorole.py line 103). -/
def maxRoles : RoleType → Nat
  | .humans => 5
  | .bots => 2

/-- A guild's entry: the `{"humans": [...], "bots": [...]}` dict. -/
structure GuildData where
  humans : List Nat
  bots : List Nat
deriving DecidableEq, Repr

/-- The default-factory value `{"humans": [], "bots": []}`. -/
def GuildData.empty : GuildData := ⟨[], []⟩

/-- Read the list of one category. -/
def GuildData.get : GuildData → RoleType → List Nat
  | d, .humans => d.humans
  | d, .bots => d.bots

/-- Overwrite the list of one category. -/
def GuildData.set : GuildData → RoleType → List Nat → GuildData
  | d, .humans, l => { d with humans := l }
  | d, .bots, l => { d with bots := l }

/-- Python dict lookup `m[k]` / `m.get(k)` on an association list. -/
def dlookup {α : Type} : List (String × α) → String → Option α
  | [], _ => none
  | (k, v) :: rest, k0 => if k = k0 then some v else dlookup rest k0

/-- Python dict item assignment `m[k] = v`: overwrite in place if the key is
present, append at the end otherwise. -/
def dinsert {α : Type} : List (String × α) → String → α → List (String × α)
  | [], k, v => [(k, v)]
  | (k1, v1) :: rest, k, v =>
    if k1 = k then (k, v) :: rest else (k1, v1) :: dinsert rest k v

/-- Python `del m[k]`: drop the key's entry. -/
def derase {α : Type} (m : List (String × α)) (k : String) : List (String × α) :=
  m.filter (fun p => decide (p.1 ≠ k))

/-- A template document: `{"name": ..., "humans": [...], "bots": [...]}`
(autorole.py lines 42-46). -/
structure Template where
  tname : String
  humans : List Nat
  bots : List Nat
deriving DecidableEq, Repr

/-- One guild's template catalog: template id → template. -/
abbrev Catalog := List (String × Template)

/-- Whole-system state: the manager's in-memory `self.data` plus the two
JSON files (`none` = file absent, raising `FileNotFoundError` on read). -/
structure SysState where
  data : List (String × GuildData)
  configFile : Option (List (String × GuildData))
  templateFile : Option (List (String × Catalog))
deriving DecidableEq, Repr

/-- Fresh-process state: empty `defaultdict`, neither file exists yet. -/
def initState : SysState := ⟨[], none, none⟩

/-- `self.data[guild_id]` through the defaultdict: an unseen key
materializes the default entry in the mapping. -/
def getGuild (s : SysState) (g : String) : GuildData × SysState :=
  match dlookup s.data g with
  | some d => (d, s)
  | none => (GuildData.empty, { s with data := s.data ++ [(g, GuildData.empty)] })

/-- `save_data` (lines 97-99): dump `self.data` to `db/autorole.json`. -/
def save_data (s : SysState) : SysState :=
  { s with configFile := some s.data }

/-- `check_role_limit` (lines 101-104). -/
def check_role_limit (s : SysState) (g : String) (rt : RoleType) :
    (Bool × Nat) × SysState :=
  let r := getGuild s g
  let current := r.1.get rt
  let mx := maxRoles rt
  ((decide (current.length ≥ mx), mx), r.2)

/-- The `RoleLimit` exception (line 9), carrying its message. -/
structure RoleLimit where
  msg : String
deriving DecidableEq, Repr

/-- The f-string of line 109. -/
def roleLimitMsg (mx : Nat) (rt : RoleType) : String :=
  "Maximum limit of " ++ toString mx ++ " roles for " ++ rt.key ++
    " has been reached."

/-- `add_role` (lines 106-112).  `some e` models the raised `RoleLimit`;
the paired state is the state at the moment of raise/return. -/
def add_role (s : SysState) (g : String) (rt : RoleType) (rid : Nat) :
    Option RoleLimit × SysState :=
  let c := check_role_limit s g rt
  if c.1.1 then (some ⟨roleLimitMsg c.1.2 rt⟩, c.2)
  else
    let r := getGuild c.2 g
    if rid ∈ r.1.get rt then (none, r.2)
    else
      let s3 := { r.2 with data := dinsert r.2.data g (r.1.set rt (r.1.get rt ++ [rid])) }
      (none, save_data s3)

/-- `remove_role` (lines 114-117).  `list.remove` drops the first
occurrence. -/
def remove_role (s : SysState) (g : String) (rt : RoleType) (rid : Nat) :
    SysState :=
  let r := getGuild s g
  if rid ∈ r.1.get rt then
    save_data { r.2 with data := dinsert r.2.data g (r.1.set rt ((r.1.get rt).erase rid)) }
  else r.2

/-- `get_roles` (lines 119-120): returns the category's list, materializing
the guild entry on the way. -/
def get_roles (s : SysState) (g : String) (rt : RoleType) :
    List Nat × SysState :=
  let r := getGuild s g
  (r.1.get rt, r.2)

/-- `reset_guild` (lines 122-125): `in` on a defaultdict does not
materialize, so an unseen guild is a pure no-op. -/
def reset_guild (s : SysState) (g : String) : SysState :=
  match dlookup s.data g with
  | some _ => save_data { s with data := derase s.data g }
  | none => s

/-- `save_template` (lines 40-59).  `tid` stands for the generated
`str(uuid.uuid4())`; `none` is the `return None` "no slot" sentinel. -/
def save_template (s : SysState) (g : String) (nm : String) (tid : String) :
    Option String × SysState :=
  let r := getGuild s g
  let t : Template := ⟨nm, r.1.humans, r.1.bots⟩
  let ts0 := r.2.templateFile.getD []
  let ts1 := if (dlookup ts0 g).isSome then ts0 else ts0 ++ [(g, ([] : Catalog))]
  let cat := (dlookup ts1 g).getD []
  if cat.length ≥ 10 then (none, r.2)
  else
    (some tid, { r.2 with templateFile := some (dinsert ts1 g (dinsert cat tid t)) })

/-- Lookup of `templates[guild_id][template_id]`, `none` when the file is
missing, the guild has no catalog, or the id is absent. -/
def findTemplate (s : SysState) (g tid : String) : Option Template :=
  match s.templateFile with
  | none => none
  | some ts =>
    match dlookup ts g with
    | none => none
    | some cat => dlookup cat tid

/-- `load_template` (lines 61-75). -/
def load_template (s : SysState) (g tid : String) : Bool × SysState :=
  match s.templateFile with
  | none => (false, s)
  | some ts =>
    match dlookup ts g with
    | none => (false, s)
    | some cat =>
      match dlookup cat tid with
      | none => (false, s)
      | some t =>
        let r := getGuild s g
        let d1 := (r.1.set .humans t.humans).set .bots t.bots
        (true, save_data { r.2 with data := dinsert r.2.data g d1 })

/-- `delete_template` (lines 27-38). -/
def delete_template (s : SysState) (g tid : String) : Bool × SysState :=
  match s.templateFile with
  | none => (false, s)
  | some ts =>
    match dlookup ts g with
    | none => (false, s)
    | some cat =>
      match dlookup cat tid with
      | none => (false, s)
      | some _ =>
        (true, { s with templateFile := some (dinsert ts g (derase cat tid)) })

/-- Configuration-store mutations, for quantifying over call sequences. -/
inductive Op
  | addR (g : String) (rt : RoleType) (rid : Nat)
  | removeR (g : String) (rt : RoleType) (rid : Nat)
  | resetG (g : String)
deriving DecidableEq, Repr

/-- Apply one mutation; a raised `RoleLimit` leaves the reached state. -/
def applyOp (s : SysState) : Op → SysState
  | .addR g rt rid => (add_role s g rt rid).2
  | .removeR g rt rid => remove_role s g rt rid
  | .resetG g => reset_guild s g

/-- Run a sequence of mutations. -/
def runOps : SysState → List Op → SysState
  | s, [] => s
  | s, op :: rest => runOps (applyOp s op) rest

/-- The guild's catalog as stored on disk (empty when absent). -/
def tenantCatalog (s : SysState) (g : String) : Catalog :=
  (dlookup (s.templateFile.getD []) g).getD []

/-! ### The per-category cap invariant -/

/-- Every guild entry of the in-memory mapping respects both caps. -/
def capOK (s : SysState) : Prop :=
  ∀ g d, dlookup s.data g = some d → ∀ rt, (d.get rt).length ≤ maxRoles rt

/-- A state reached by filling guild `"1"`'s human category to its cap of 5. -/
def capFullState : SysState :=
  runOps initState
    [.addR "1" .humans 1, .addR "1" .humans 2, .addR "1" .humans 3,
     .addR "1" .humans 4, .addR "1" .humans 5]

/-- A state whose guild `"1"` holds one role in each category. -/
def smallState : SysState := ⟨[("1", ⟨[7], [8]⟩)], none, none⟩

/-- A template catalog already holding ten templates. -/
def tenTemplates : Catalog :=
  [("t0", ⟨"n0", [], []⟩), ("t1", ⟨"n1", [], []⟩), ("t2", ⟨"n2", [], []⟩),
   ("t3", ⟨"n3", [], []⟩), ("t4", ⟨"n4", [], []⟩), ("t5", ⟨"n5", [], []⟩),
   ("t6", ⟨"n6", [], []⟩), ("t7", ⟨"n7", [], []⟩), ("t8", ⟨"n8", [], []⟩),
   ("t9", ⟨"n9", [], []⟩)]

/-- A state whose guild `"1"` already has a full template catalog. -/
def fullCatalogState : SysState := ⟨[], none, some [("1", tenTemplates)]⟩

/-- A state whose guild `"1"` has one stored template `"t1"`. -/
def oneTemplateState : SysState :=
  ⟨[("1", ⟨[5], [6]⟩)], none, some [("1", [("t1", ⟨"n", [7], [8]⟩)])]⟩

example : (get_roles initState "1" .humans).1 = [] := by decide
example : (add_role initState "1" .humans 7).1 = none := by decide
example :
    (get_roles (add_role initState "1" .humans 7).2 "1" .humans).1 = [7] := by
  decide

/-! ### Dictionary lemmas -/

lemma dlookup_dinsert_self {α : Type} (m : List (String × α)) (k : String) (v : α) :
    dlookup (dinsert m k v) k = some v := by
  induction m with
  | nil => simp [dinsert, dlookup]
  | cons p rest ih =>
    by_cases h : p.1 = k
    · simp [dinsert, dlookup, h]
    · simp [dinsert, dlookup, h, ih]

lemma dlookup_dinsert_ne {α : Type} (m : List (String × α)) (k k0 : String) (v : α)
    (h : k ≠ k0) : dlookup (dinsert m k v) k0 = dlookup m k0 := by
  induction m with
  | nil => simp [dinsert, dlookup, h]
  | cons p rest ih =>
    by_cases h1 : p.1 = k
    · simp [dinsert, dlookup, h1, h]
    · simp only [dinsert, h1, if_false, dlookup]
      by_cases h2 : p.1 = k0 <;> simp [h2, ih]

lemma dlookup_derase_self {α : Type} (m : List (String × α)) (k : String) :
    dlookup (derase m k) k = none := by
  induction m with
  | nil => simp [derase, dlookup]
  | cons p rest ih =>
    by_cases h : p.1 = k
    · simpa [derase, h] using ih
    · simpa [derase, dlookup, h] using ih

lemma dlookup_derase_ne {α : Type} (m : List (String × α)) (k k0 : String)
    (h : k ≠ k0) : dlookup (derase m k) k0 = dlookup m k0 := by
  induction m with
  | nil => simp [derase, dlookup]
  | cons p rest ih =>
    by_cases h1 : p.1 = k
    · simpa [derase, dlookup, h1, h] using ih
    · by_cases h2 : p.1 = k0
      · simp [derase, dlookup, h1, h2, Ne.symm h]
      · simpa [derase, dlookup, h1, h2] using ih

lemma dlookup_append_single_self {α : Type} (m : List (String × α)) (k : String)
    (v : α) (h : dlookup m k = none) :
    dlookup (m ++ [(k, v)]) k = some v := by
  induction m with
  | nil => simp [dlookup]
  | cons p rest ih =>
    by_cases h1 : p.1 = k
    · simp [dlookup, h1] at h
    · simp only [dlookup, h1, if_false] at h
      simpa [dlookup, h1] using ih h

lemma dlookup_append_single_ne {α : Type} (m : List (String × α)) (k k0 : String)
    (v : α) (h : k ≠ k0) :
    dlookup (m ++ [(k, v)]) k0 = dlookup m k0 := by
  induction m with
  | nil => simp [dlookup, h]
  | cons p rest ih =>
    by_cases h1 : p.1 = k0 <;> simp [dlookup, h1, ih]

lemma dlookup_dinsert_inv {α : Type} {m : List (String × α)} {k k0 : String}
    {v : α} {v0 : α} (h : dlookup (dinsert m k v) k0 = some v0) :
    (k0 = k ∧ v0 = v) ∨ (k0 ≠ k ∧ dlookup m k0 = some v0) := by
  by_cases he : k0 = k
  · subst he
    rw [dlookup_dinsert_self] at h
    exact Or.inl ⟨rfl, (Option.some_inj.mp h).symm⟩
  · rw [dlookup_dinsert_ne m k k0 v (fun e => he e.symm)] at h
    exact Or.inr ⟨he, h⟩

lemma dlookup_append_single_inv {α : Type} {m : List (String × α)}
    {k k0 : String} {v v0 : α} (hm : dlookup m k = none)
    (h : dlookup (m ++ [(k, v)]) k0 = some v0) :
    (k0 = k ∧ v0 = v) ∨ (k0 ≠ k ∧ dlookup m k0 = some v0) := by
  by_cases he : k0 = k
  · subst he
    rw [dlookup_append_single_self m k0 v hm] at h
    exact Or.inl ⟨rfl, (Option.some_inj.mp h).symm⟩
  · rw [dlookup_append_single_ne m k k0 v (fun e => he e.symm)] at h
    exact Or.inr ⟨he, h⟩

lemma dlookup_derase_inv {α : Type} {m : List (String × α)} {k k0 : String}
    {v0 : α} (h : dlookup (derase m k) k0 = some v0) :
    dlookup m k0 = some v0 := by
  by_cases he : k0 = k
  · subst he
    rw [dlookup_derase_self] at h
    exact absurd h (by simp)
  · rwa [dlookup_derase_ne m k k0 (fun e => he e.symm)] at h

/-! ### Category accessor lemmas -/

lemma GuildData.get_set_same (d : GuildData) (rt : RoleType) (l : List Nat) :
    (d.set rt l).get rt = l := by
  cases rt <;> rfl

lemma GuildData.get_set_other (d : GuildData) (rt rt0 : RoleType) (l : List Nat)
    (h : rt0 ≠ rt) : (d.set rt l).get rt0 = d.get rt0 := by
  cases rt <;> cases rt0 <;> first | rfl | exact absurd rfl h

lemma GuildData.empty_get (rt : RoleType) : GuildData.empty.get rt = [] := by
  cases rt <;> rfl

lemma capOK_initState : capOK initState := by
  intro g d h
  simp [initState, dlookup] at h

lemma getGuild_capOK (s : SysState) (g : String) (h : capOK s) :
    capOK (getGuild s g).2 ∧
      ∀ rt, (((getGuild s g).1).get rt).length ≤ maxRoles rt := by
  unfold getGuild
  cases hg : dlookup s.data g with
  | some d => exact ⟨h, h g d hg⟩
  | none =>
    constructor
    · intro g0 d0 h0 rt
      rcases dlookup_append_single_inv hg h0 with ⟨_, rfl⟩ | ⟨_, h2⟩
      · simp [GuildData.empty_get]
      · exact h g0 d0 h2 rt
    · intro rt
      simp [GuildData.empty_get]

lemma getGuild_idem (s : SysState) (g : String) :
    getGuild (getGuild s g).2 g = ((getGuild s g).1, (getGuild s g).2) := by
  unfold getGuild
  cases hg : dlookup s.data g with
  | some d => simp [hg]
  | none => simp [dlookup_append_single_self s.data g GuildData.empty hg]

lemma capOK_add_role (s : SysState) (g : String) (rt : RoleType) (rid : Nat)
    (h : capOK s) : capOK (add_role s g rt rid).2 := by
  have hgg := getGuild_capOK s g h
  unfold add_role check_role_limit
  by_cases hlim : ((((getGuild s g).1).get rt).length ≥ maxRoles rt)
  · simp only [decide_eq_true hlim, if_true]
    exact hgg.1
  · simp only [decide_eq_false hlim, Bool.false_eq_true, if_false, getGuild_idem]
    by_cases hmem : rid ∈ ((getGuild s g).1).get rt
    · simp only [hmem, if_true]
      exact hgg.1
    · simp only [hmem, if_false]
      intro g0 d0 h0 rt0
      simp only [save_data] at h0
      rcases dlookup_dinsert_inv h0 with ⟨_, rfl⟩ | ⟨_, h2⟩
      · by_cases hrt : rt0 = rt
        · subst hrt
          rw [GuildData.get_set_same]
          have := hgg.2 rt0
          simp only [List.length_append, List.length_cons, List.length_nil]
          omega
        · rw [GuildData.get_set_other _ _ _ _ hrt]
          exact hgg.2 rt0
      · exact hgg.1 g0 d0 h2 rt0

lemma capOK_remove_role (s : SysState) (g : String) (rt : RoleType) (rid : Nat)
    (h : capOK s) : capOK (remove_role s g rt rid) := by
  have hgg := getGuild_capOK s g h
  unfold remove_role
  by_cases hmem : rid ∈ ((getGuild s g).1).get rt
  · simp only [hmem, if_true]
    intro g0 d0 h0 rt0
    simp only [save_data] at h0
    rcases dlookup_dinsert_inv h0 with ⟨_, rfl⟩ | ⟨_, h2⟩
    · by_cases hrt : rt0 = rt
      · subst hrt
        rw [GuildData.get_set_same]
        have h1 : ((((getGuild s g).1).get rt0).erase rid).length ≤
            (((getGuild s g).1).get rt0).length :=
          (List.erase_sublist _ _).length_le
        exact le_trans h1 (hgg.2 rt0)
      · rw [GuildData.get_set_other _ _ _ _ hrt]
        exact hgg.2 rt0
    · exact hgg.1 g0 d0 h2 rt0
  · simp only [hmem, if_false]
    exact hgg.1

lemma capOK_reset_guild (s : SysState) (g : String) (h : capOK s) :
    capOK (reset_guild s g) := by
  unfold reset_guild
  cases hg : dlookup s.data g with
  | some d =>
    intro g0 d0 h0 rt
    simp only [save_data] at h0
    exact h g0 d0 (dlookup_derase_inv h0) rt
  | none => exact h

lemma capOK_runOps (s : SysState) (ops : List Op) (h : capOK s) :
    capOK (runOps s ops) := by
  induction ops generalizing s with
  | nil => exact h
  | cons op rest ih =>
    refine ih (applyOp s op) ?_
    cases op with
    | addR g rt rid => exact capOK_add_role s g rt rid h
    | removeR g rt rid => exact capOK_remove_role s g rt rid h
    | resetG g => exact capOK_reset_guild s g h

/-! ### Frame lemmas: which fields each operation leaves alone -/

lemma getGuild_configFile (s : SysState) (g : String) :
    (getGuild s g).2.configFile = s.configFile := by
  unfold getGuild
  cases h : dlookup s.data g <;> simp

lemma getGuild_templateFile (s : SysState) (g : String) :
    (getGuild s g).2.templateFile = s.templateFile := by
  unfold getGuild
  cases h : dlookup s.data g <;> simp

lemma add_role_templateFile (s : SysState) (g : String) (rt : RoleType)
    (rid : Nat) : (add_role s g rt rid).2.templateFile = s.templateFile := by
  unfold add_role check_role_limit
  simp only [getGuild_idem]
  split
  · exact getGuild_templateFile s g
  · split
    · exact getGuild_templateFile s g
    · simp [save_data, getGuild_templateFile]

lemma remove_role_templateFile (s : SysState) (g : String) (rt : RoleType)
    (rid : Nat) : (remove_role s g rt rid).templateFile = s.templateFile := by
  by_cases hmem : rid ∈ (((getGuild s g).1).get rt)
  · simp [remove_role, hmem, save_data, getGuild_templateFile]
  · simp [remove_role, hmem, getGuild_templateFile]

lemma reset_guild_templateFile (s : SysState) (g : String) :
    (reset_guild s g).templateFile = s.templateFile := by
  unfold reset_guild
  cases h : dlookup s.data g <;> simp [save_data]

lemma runOps_templateFile (s : SysState) (ops : List Op) :
    (runOps s ops).templateFile = s.templateFile := by
  induction ops generalizing s with
  | nil => rfl
  | cons op rest ih =>
    refine (ih (applyOp s op)).trans ?_
    cases op with
    | addR g rt rid => exact add_role_templateFile s g rt rid
    | removeR g rt rid => exact remove_role_templateFile s g rt rid
    | resetG g => exact reset_guild_templateFile s g

/-! ### Pointwise characterizations of the operations -/

lemma getGuild_present (s : SysState) (g : String) (d : GuildData)
    (hd : dlookup s.data g = some d) : getGuild s g = (d, s) := by
  unfold getGuild
  rw [hd]

lemma get_roles_present (s : SysState) (g : String) (d : GuildData)
    (hd : dlookup s.data g = some d) (rt : RoleType) :
    get_roles s g rt = (d.get rt, s) := by
  unfold get_roles
  rw [getGuild_present s g d hd]

lemma GuildData.set_both (d : GuildData) (t : Template) :
    (d.set .humans t.humans).set .bots t.bots = ⟨t.humans, t.bots⟩ := by
  cases d
  rfl

lemma load_template_found (s : SysState) (g tid : String) (t : Template)
    (hf : findTemplate s g tid = some t) :
    load_template s g tid =
      (true, save_data { (getGuild s g).2 with
        data := dinsert ((getGuild s g).2).data g ⟨t.humans, t.bots⟩ }) := by
  unfold findTemplate at hf
  cases hts : s.templateFile with
  | none => simp [hts] at hf
  | some ts =>
    simp only [hts] at hf
    cases hg : dlookup ts g with
    | none => simp [hg] at hf
    | some cat =>
      simp only [hg] at hf
      simp only [load_template, hts, hg, hf, GuildData.set_both]

lemma load_template_missing (s : SysState) (g tid : String)
    (hf : findTemplate s g tid = none) :
    load_template s g tid = (false, s) := by
  unfold findTemplate at hf
  cases hts : s.templateFile with
  | none => simp [load_template, hts]
  | some ts =>
    simp only [hts] at hf
    cases hg : dlookup ts g with
    | none => simp [load_template, hts, hg]
    | some cat =>
      simp only [hg] at hf
      simp [load_template, hts, hg, hf]

lemma save_template_success (s : SysState) (g nm tid : String)
    (hcap : (tenantCatalog s g).length < 10) :
    (save_template s g nm tid).1 = some tid ∧
    (save_template s g nm tid).2.data = (getGuild s g).2.data ∧
    (save_template s g nm tid).2.configFile = s.configFile ∧
    ∃ ts, (save_template s g nm tid).2.templateFile = some ts ∧
      dlookup ts g =
        some (dinsert (tenantCatalog s g) tid
          ⟨nm, ((getGuild s g).1).humans, ((getGuild s g).1).bots⟩) := by
  unfold tenantCatalog at hcap ⊢
  cases hg : dlookup (s.templateFile.getD []) g with
  | some cat =>
    simp only [hg, Option.getD_some] at hcap ⊢
    have hnot : ¬ (cat.length ≥ 10) := not_le.mpr hcap
    simp only [save_template, getGuild_templateFile, hg, Option.isSome_some,
      if_true, Option.getD_some, hnot, if_false]
    exact ⟨True.intro, True.intro, getGuild_configFile s g, _, rfl, dlookup_dinsert_self _ _ _⟩
  | none =>
    simp only [hg, Option.getD_none] at hcap ⊢
    have hself : dlookup (s.templateFile.getD [] ++ [(g, ([] : Catalog))]) g =
        some ([] : Catalog) :=
      dlookup_append_single_self _ g _ hg
    have hnot : ¬ ((List.length ([] : Catalog)) ≥ 10) := by simp
    simp only [save_template, getGuild_templateFile, hg, Option.isSome_none,
      Bool.false_eq_true, if_false, hself, Option.getD_some, hnot]
    exact ⟨True.intro, True.intro, getGuild_configFile s g, _, rfl, dlookup_dinsert_self _ _ _⟩

lemma get_roles_absent (s : SysState) (g : String) (rt : RoleType)
    (h : dlookup s.data g = none) : (get_roles s g rt).1 = [] := by
  simp [get_roles, getGuild, h, GuildData.empty_get]

lemma save_template_data (s : SysState) (g nm tid : String) :
    (save_template s g nm tid).2.data = (getGuild s g).2.data := by
  simp only [save_template]
  split <;> split <;> rfl

/-! ## Claim theorems -/

/-- C1: for every tenant and category, after any sequence of configuration
mutations starting from the empty state, the length of the category's role
list returned by `get_roles` is at most the category's cap
(`maxRoles`: 5 for humans, 2 for bots). -/
theorem C1_role_cap_invariant (ops : List Op) (g : String) (rt : RoleType) :
    ((get_roles (runOps initState ops) g rt).1).length ≤ maxRoles rt := by
  have h := capOK_runOps initState ops capOK_initState
  have hg := getGuild_capOK (runOps initState ops) g h
  exact hg.2 rt

/-- C2 counterexample: with guild `"1"`'s human list at its cap and role 1
already present, `add_role` raises `RoleLimit` (the limit check runs before
the membership check), so the duplicate add is not a silent error-free
no-op. -/
theorem C2_counterexample :
    (get_roles capFullState "1" .humans).1 = [1, 2, 3, 4, 5] ∧
    1 ∈ (get_roles capFullState "1" .humans).1 ∧
    (get_roles capFullState "1" .humans).1.length = maxRoles .humans ∧
    (add_role capFullState "1" .humans 1).1 ≠ none := by
  decide

/-- C2 amended: when the role id is already present and the category's list
is strictly below its cap, `add_role` is a silent no-op — it returns no
error and leaves the whole state (mapping and both files) unchanged.  At
the cap, `add_role` raises `RoleLimit` even for an already-present role. -/
theorem C2_amended_duplicate_noop (s : SysState) (g : String) (rt : RoleType)
    (rid : Nat) (d : GuildData) (hd : dlookup s.data g = some d)
    (hmem : rid ∈ d.get rt) (hlt : (d.get rt).length < maxRoles rt) :
    add_role s g rt rid = (none, s) := by
  have hgg := getGuild_present s g d hd
  have hnl : ¬ ((d.get rt).length ≥ maxRoles rt) := not_le.mpr hlt
  simp only [add_role, check_role_limit, hgg, decide_eq_false hnl,
    Bool.false_eq_true, if_false, hmem, if_true]

/-- C2 amended witness: duplicate add of role 7 below the cap on a concrete
state is a silent no-op. -/
theorem C2_amended_witness :
    7 ∈ (GuildData.mk [7] [8]).get .humans ∧
    ((GuildData.mk [7] [8]).get .humans).length < maxRoles .humans ∧
    add_role smallState "1" .humans 7 = (none, smallState) :=
  ⟨by decide, by decide,
    C2_amended_duplicate_noop smallState "1" .humans 7 ⟨[7], [8]⟩ (by decide)
      (by decide) (by decide)⟩

/-- C3: for a tenant whose category list is at its cap and a role id not in
the list, `add_role` raises `RoleLimit` carrying the message built from the
category's maximum (5 for humans, 2 for bots) and leaves the state — data
and both files — completely unchanged. -/
theorem C3_add_role_at_cap (s : SysState) (g : String) (rt : RoleType)
    (rid : Nat) (d : GuildData) (hd : dlookup s.data g = some d)
    (hcap : (d.get rt).length ≥ maxRoles rt) (_hmem : rid ∉ d.get rt) :
    add_role s g rt rid = (some ⟨roleLimitMsg (maxRoles rt) rt⟩, s) ∧
    maxRoles .humans = 5 ∧ maxRoles .bots = 2 ∧
    roleLimitMsg (maxRoles .humans) .humans =
      "Maximum limit of 5 roles for humans has been reached." ∧
    roleLimitMsg (maxRoles .bots) .bots =
      "Maximum limit of 2 roles for bots has been reached." := by
  have hgg := getGuild_present s g d hd
  refine ⟨?_, rfl, rfl, by decide, by decide⟩
  simp only [add_role, check_role_limit, hgg, decide_eq_true hcap, if_true]

/-- C3 witness: adding a sixth human role to a guild at the cap fails with
the limit error and leaves the state unchanged. -/
theorem C3_witness :
    ((GuildData.mk [1, 2, 3, 4, 5] []).get .humans).length ≥ maxRoles .humans ∧
    (6 : Nat) ∉ (GuildData.mk [1, 2, 3, 4, 5] []).get .humans ∧
    add_role capFullState "1" .humans 6 =
      (some ⟨roleLimitMsg (maxRoles .humans) .humans⟩, capFullState) :=
  ⟨by decide, by decide,
    (C3_add_role_at_cap capFullState "1" .humans 6 ⟨[1, 2, 3, 4, 5], []⟩
      (by decide) (by decide) (by decide)).1⟩

/-- C5: saving a template for a tenant whose catalog already holds 10
templates returns the `none` "no slot" sentinel, and neither the template
document nor the configuration document changes. -/
theorem C5_save_template_full (s : SysState) (g nm tid : String)
    (hfull : (tenantCatalog s g).length = 10) :
    (save_template s g nm tid).1 = none ∧
    (save_template s g nm tid).2.templateFile = s.templateFile ∧
    (save_template s g nm tid).2.configFile = s.configFile := by
  unfold tenantCatalog at hfull
  cases hg : dlookup (s.templateFile.getD []) g with
  | none => rw [hg] at hfull; simp at hfull
  | some cat =>
    rw [hg] at hfull
    simp only [Option.getD_some] at hfull
    have hge : cat.length ≥ 10 := le_of_eq hfull.symm
    simp only [save_template, getGuild_templateFile, hg, Option.isSome_some,
      if_true, Option.getD_some]
    rw [if_pos hge]
    exact ⟨rfl, getGuild_templateFile s g, getGuild_configFile s g⟩

/-- C5 witness: an eleventh save on a concrete guild with ten stored
templates yields the sentinel and leaves the template document as it was. -/
theorem C5_witness :
    (tenantCatalog fullCatalogState "1").length = 10 ∧
    (save_template fullCatalogState "1" "nm" "tx").1 = none ∧
    (save_template fullCatalogState "1" "nm" "tx").2.templateFile =
      fullCatalogState.templateFile :=
  ⟨by decide,
    (C5_save_template_full fullCatalogState "1" "nm" "tx" (by decide)).1,
    (C5_save_template_full fullCatalogState "1" "nm" "tx" (by decide)).2.1⟩

/-- C6: `load_template` returns `false` exactly when the template file
misses the tenant/template pair, and then it leaves the entire state
untouched; on success it returns `true`, overwrites the tenant's entry with
exactly the template's two captured lists, and persists the configuration
document. -/
theorem C6_load_template_spec (s : SysState) (g tid : String) :
    ((load_template s g tid).1 = false ↔ findTemplate s g tid = none) ∧
    (findTemplate s g tid = none → load_template s g tid = (false, s)) ∧
    (∀ t, findTemplate s g tid = some t →
      (load_template s g tid).1 = true ∧
      dlookup (load_template s g tid).2.data g = some ⟨t.humans, t.bots⟩ ∧
      (load_template s g tid).2.configFile =
        some (load_template s g tid).2.data) := by
  cases hf : findTemplate s g tid with
  | none =>
    have hl := load_template_missing s g tid hf
    rw [hl]
    exact ⟨by simp, fun _ => rfl, fun t ht => Option.noConfusion ht⟩
  | some t0 =>
    have hl := load_template_found s g tid t0 hf
    rw [hl]
    refine ⟨by simp [hf], fun hn => Option.noConfusion hn, ?_⟩
    intro t ht
    injection ht with ht
    subst ht
    refine ⟨rfl, ?_, rfl⟩
    simp [save_data, dlookup_dinsert_self]

/-- C6 witness: loading a stored template on a concrete state succeeds and
overwrites the live lists with the captured ones, persisting the result. -/
theorem C6_witness :
    findTemplate oneTemplateState "1" "t1" = some ⟨"n", [7], [8]⟩ ∧
    (load_template oneTemplateState "1" "t1").1 = true ∧
    dlookup (load_template oneTemplateState "1" "t1").2.data "1" =
      some ⟨[7], [8]⟩ ∧
    (load_template oneTemplateState "1" "t1").2.configFile =
      some (load_template oneTemplateState "1" "t1").2.data := by
  have h := (C6_load_template_spec oneTemplateState "1" "t1").2.2
    ⟨"n", [7], [8]⟩ (by decide)
  exact ⟨by decide, h.1, h.2.1, h.2.2⟩

/-- C7: after `reset_guild`, both categories of the tenant read back as
empty, and resetting a tenant with no state is a pure no-op rather than an
error. -/
theorem C7_reset_clears (s : SysState) (g : String) :
    (get_roles (reset_guild s g) g .humans).1 = [] ∧
    (get_roles (reset_guild s g) g .bots).1 = [] ∧
    (dlookup s.data g = none → reset_guild s g = s) := by
  cases h : dlookup s.data g with
  | none =>
    have hid : reset_guild s g = s := by simp [reset_guild, h]
    rw [hid]
    exact ⟨get_roles_absent s g .humans h, get_roles_absent s g .bots h,
      fun _ => rfl⟩
  | some d =>
    have h2 : dlookup (reset_guild s g).data g = none := by
      simp [reset_guild, h, save_data, dlookup_derase_self]
    exact ⟨get_roles_absent _ g .humans h2, get_roles_absent _ g .bots h2,
      fun hn => Option.noConfusion hn⟩

/-- C7 witness: resetting a concrete configured guild clears both
categories, and resetting an unknown guild leaves the fresh state intact. -/
theorem C7_witness :
    (get_roles (reset_guild smallState "1") "1" .humans).1 = [] ∧
    (get_roles (reset_guild smallState "1") "1" .bots).1 = [] ∧
    reset_guild initState "2" = initState :=
  ⟨(C7_reset_clears smallState "1").1, (C7_reset_clears smallState "1").2.1,
    (C7_reset_clears initState "2").2.2 (by decide)⟩

/-- C8: deleting a template that does not exist — missing file, unknown
tenant, or unknown template id — returns `false` and leaves the whole
state, in particular the template document, unchanged. -/
theorem C8_delete_template_missing (s : SysState) (g tid : String)
    (h : findTemplate s g tid = none) :
    delete_template s g tid = (false, s) := by
  unfold findTemplate at h
  cases hts : s.templateFile with
  | none => simp [delete_template, hts]
  | some ts =>
    simp only [hts] at h
    cases hg : dlookup ts g with
    | none => simp [delete_template, hts, hg]
    | some cat =>
      simp only [hg] at h
      simp [delete_template, hts, hg, h]

/-- C8 witness: deleting an unknown template id from a concrete catalog
fails and changes nothing. -/
theorem C8_witness :
    findTemplate oneTemplateState "1" "zz" = none ∧
    delete_template oneTemplateState "1" "zz" = (false, oneTemplateState) :=
  ⟨by decide, C8_delete_template_missing oneTemplateState "1" "zz" (by decide)⟩

/-- C4: saving a template (below the catalog cap, with a fresh id as uuid4
guarantees) and later loading it restores exactly the two role lists held
at save time, whatever sequence of add/remove/reset mutations ran in
between. -/
theorem C4_template_roundtrip (s : SysState) (g nm tid : String)
    (ops : List Op) (hcap : (tenantCatalog s g).length < 10)
    (_hfresh : dlookup (tenantCatalog s g) tid = none) :
    (save_template s g nm tid).1 = some tid ∧
    (load_template (runOps (save_template s g nm tid).2 ops) g tid).1 = true ∧
    (get_roles (load_template (runOps (save_template s g nm tid).2 ops) g tid).2
        g .humans).1 = ((getGuild s g).1).humans ∧
    (get_roles (load_template (runOps (save_template s g nm tid).2 ops) g tid).2
        g .bots).1 = ((getGuild s g).1).bots := by
  obtain ⟨h1, hdata, hcfg, ts, hts, hlook⟩ := save_template_success s g nm tid hcap
  have htf2 : (runOps (save_template s g nm tid).2 ops).templateFile = some ts := by
    rw [runOps_templateFile, hts]
  have hfind : findTemplate (runOps (save_template s g nm tid).2 ops) g tid =
      some ⟨nm, ((getGuild s g).1).humans, ((getGuild s g).1).bots⟩ := by
    simp only [findTemplate, htf2, hlook, dlookup_dinsert_self]
  have hl := load_template_found _ g tid _ hfind
  have hpd : dlookup
      ((load_template (runOps (save_template s g nm tid).2 ops) g tid).2).data g =
      some ⟨((getGuild s g).1).humans, ((getGuild s g).1).bots⟩ := by
    rw [hl]
    simp [save_data, dlookup_dinsert_self]
  refine ⟨h1, by rw [hl], ?_, ?_⟩
  · rw [get_roles_present _ g _ hpd RoleType.humans]
    rfl
  · rw [get_roles_present _ g _ hpd RoleType.bots]
    rfl

/-- C4 witness: a concrete save on a configured guild, followed by an add
and a full reset, then a load, brings back the human list held at save
time. -/
theorem C4_witness :
    (tenantCatalog smallState "1").length < 10 ∧
    dlookup (tenantCatalog smallState "1") "t9" = none ∧
    (get_roles
      (load_template
        (runOps (save_template smallState "1" "nm" "t9").2
          [Op.addR "1" RoleType.humans 9, Op.resetG "1"]) "1" "t9").2
      "1" RoleType.humans).1 = ((getGuild smallState "1").1).humans :=
  ⟨by decide, by decide,
    (C4_template_roundtrip smallState "1" "nm" "t9"
      [Op.addR "1" RoleType.humans 9, Op.resetG "1"]
      (by decide) (by decide)).2.2.1⟩

/-- C9 counterexample: `check_role_limit` on a tenant never seen before is
not a frame-preserving pure read — it materializes an empty entry for the
tenant in the in-memory mapping, so the state after the call differs from
the state before. -/
theorem C9_counterexample :
    dlookup initState.data "1" = none ∧
    (check_role_limit initState "1" .humans).2 ≠ initState := by
  decide

/-- C9 amended: `check_role_limit` returns `(atLimit, max)` with the
category constant (5 for humans, 2 for bots) and `atLimit` true exactly
when the current length has reached it; it never persists either document,
and it leaves the state unchanged for a known tenant — but for a
never-seen tenant it materializes an empty in-memory entry (and reports
`atLimit = false`). -/
theorem C9_amended_check_limit (s : SysState) (g : String) (rt : RoleType) :
    (check_role_limit s g rt).1.2 = maxRoles rt ∧
    maxRoles .humans = 5 ∧ maxRoles .bots = 2 ∧
    (check_role_limit s g rt).2.configFile = s.configFile ∧
    (check_role_limit s g rt).2.templateFile = s.templateFile ∧
    (∀ d, dlookup s.data g = some d →
      check_role_limit s g rt =
        ((decide ((d.get rt).length ≥ maxRoles rt), maxRoles rt), s)) ∧
    (dlookup s.data g = none →
      check_role_limit s g rt =
        ((false, maxRoles rt),
          { s with data := s.data ++ [(g, GuildData.empty)] })) := by
  refine ⟨?_, rfl, rfl, getGuild_configFile s g, getGuild_templateFile s g,
    ?_, ?_⟩
  · simp [check_role_limit]
  · intro d hd
    simp [check_role_limit, getGuild_present s g d hd]
  · intro hn
    have hgg : getGuild s g =
        (GuildData.empty, { s with data := s.data ++ [(g, GuildData.empty)] }) := by
      unfold getGuild
      rw [hn]
    have hz : decide (((GuildData.empty).get rt).length ≥ maxRoles rt) = false := by
      cases rt <;> decide
    simp [check_role_limit, hgg, hz]

/-- C9 amended witness: the limit check on an unseen tenant reports "not at
limit, max 2" for bots and grows the mapping by the empty entry. -/
theorem C9_witness :
    dlookup initState.data "9" = none ∧
    check_role_limit initState "9" .bots =
      ((false, maxRoles .bots),
        { initState with data := initState.data ++ [("9", GuildData.empty)] }) :=
  ⟨by decide,
    (C9_amended_check_limit initState "9" .bots).2.2.2.2.2.2 (by decide)⟩

/-- C10 counterexample: `add_role` on a never-seen tenant does not leave an
empty materialized entry behind — it immediately appends the role and
persists, so the configuration document maps the tenant to a non-empty
human list, not to two empty lists. -/
theorem C10_counterexample :
    dlookup initState.data "1" = none ∧
    (add_role initState "1" .humans 10).1 = none ∧
    (add_role initState "1" .humans 10).2.configFile =
      some [("1", ⟨[10], []⟩)] ∧
    dlookup [("1", (⟨[10], []⟩ : GuildData))] "1" ≠ some GuildData.empty := by
  decide

/-- C10 amended: reading a never-seen tenant through `get_roles`,
`check_role_limit`, `remove_role` (whose role is then never present) or
`save_template`'s snapshot read materializes the tenant as an empty entry
in the in-memory mapping, and any later `save_data` writes that tenant
into the configuration document mapped to two empty lists; `add_role`,
however, follows the materialization with an append, so it persists the
tenant with the added role instead. -/
theorem C10_amended_materialization (s : SysState) (g : String)
    (rt : RoleType) (rid : Nat) (nm tid : String)
    (h : dlookup s.data g = none) :
    dlookup (get_roles s g rt).2.data g = some GuildData.empty ∧
    dlookup (check_role_limit s g rt).2.data g = some GuildData.empty ∧
    dlookup (remove_role s g rt rid).data g = some GuildData.empty ∧
    dlookup (save_template s g nm tid).2.data g = some GuildData.empty ∧
    (∀ s2 : SysState, dlookup s2.data g = some GuildData.empty →
      dlookup ((save_data s2).configFile.getD []) g = some GuildData.empty) := by
  have hgg : getGuild s g =
      (GuildData.empty, { s with data := s.data ++ [(g, GuildData.empty)] }) := by
    unfold getGuild
    rw [h]
  have hk : dlookup (s.data ++ [(g, GuildData.empty)]) g = some GuildData.empty :=
    dlookup_append_single_self s.data g GuildData.empty h
  refine ⟨?_, ?_, ?_, ?_, ?_⟩
  · simp [get_roles, hgg, hk]
  · simp [check_role_limit, hgg, hk]
  · have hne : rid ∉ ((GuildData.empty).get rt) := by cases rt <;> simp [GuildData.empty_get]
    simp [remove_role, hgg, hne, hk]
  · rw [save_template_data, hgg]
    exact hk
  · intro s2 h2
    simpa [save_data] using h2

/-- C10 amended witness: reading roles of the unseen tenant `"3"` and then
persisting writes `"3"` into the configuration document with empty
lists. -/
theorem C10_witness :
    dlookup initState.data "3" = none ∧
    dlookup (get_roles initState "3" .humans).2.data "3" = some GuildData.empty ∧
    dlookup ((save_data (get_roles initState "3" .humans).2).configFile.getD [])
      "3" = some GuildData.empty := by
  refine ⟨by decide, ?_, ?_⟩
  · exact (C10_amended_materialization initState "3" .humans 0 "n" "t" (by decide)).1
  · exact (C10_amended_materialization initState "3" .humans 0 "n" "t"
      (by decide)).2.2.2.2 (get_roles initState "3" .humans).2
      ((C10_amended_materialization initState "3" .humans 0 "n" "t" (by decide)).1)

end Autorole
